import Mathlib

/-!
Verification of the batch reconciliation and dispatch pipeline of
`book-recommender-indexer` against its natural-language specification.

The Python sources are shallowly embedded: every network interaction is an
explicit argument (a response value, or a function from request to response),
every piece of shared mutable state (the two in-process caches, the durable
task queue) is threaded explicitly, and exceptions become `Except` values.
Each definition carries a comment naming the Python function it embeds.
-/

set_option autoImplicit false

namespace BookIndexer

/-! ## Downstream API client, write path
    (src/clients/book_recommender_api_client_v2.py) -/

/-- Exceptions of the downstream API clients: `BookRecommenderApiClientException`
(raised on a 4xx write response) and `BookRecommenderApiServerException`
(raised on a 5xx response or an `httpx.HTTPError` transport failure). -/
inductive ApiExn where
  | clientExn
  | serverExn
deriving DecidableEq, Repr

/-- Outcome of one HTTP write call as observed by the client: a response with a
status code, or a transport-level failure (`httpx.HTTPError`). -/
inductive WriteResp where
  | status (code : Nat)
  | transportFailure
deriving DecidableEq, Repr

/-- Embeds `BookRecommenderApiClientV2.create_book`.  `httpx` classifies
status codes below 400 as non-error (`not response.is_error`), 400-499 as
`is_client_error` and 500+ as `is_server_error`; a transport failure is
re-raised as the server exception. -/
def create_book : WriteResp → Except ApiExn Unit
  | .status code =>
    if code < 400 then .ok ()
    else if code < 500 then .error .clientExn
    else .error .serverExn
  | .transportFailure => .error .serverExn

/-! ## Books route handler (src/routes/pubsub_books.py) -/

/-- One raw item of a decoded catalog batch, tagged with an identifier so the
theorems can speak about which items were submitted.  `invalid` stands for an
item that fails `PubSubBookV1(**book)` validation; `valid` carries the write
response the downstream API would give for this item's `create_book` call. -/
inductive BookItem where
  | invalid (id : Nat)
  | valid (id : Nat) (resp : WriteResp)
deriving DecidableEq, Repr

/-- Observable outcome of `handle_pubsub_message` in pubsub_books.py:
the HTTP status of the acknowledgement, the `indexed` counter of the
`IndexerResponse`, the ids passed to `client.create_book` in call order,
the ids contained in the `pubsub_audit_client.send_batch` call
(`successful_books`), and how many `send_batch` calls were made. -/
structure HandlerOut where
  status : Nat
  indexed : Nat
  submitted : List Nat
  audited : List Nat
  auditCalls : Nat
deriving DecidableEq, Repr

/-- The tail of `handle_pubsub_message`: audit the successful books when there
are any, then acknowledge with HTTP 200 and the current `indexed` counter.
This is reached both on normal loop exit and on the `except
BookRecommenderApiClientException` arm. -/
def ackWithAudit (indexed : Nat) (submitted successful : List Nat) : HandlerOut :=
  { status := 200, indexed := indexed, submitted := submitted,
    audited := if successful.isEmpty then [] else successful,
    auditCalls := if successful.isEmpty then 0 else 1 }

/-- The `for book in batch.items` loop of `handle_pubsub_message`
(pubsub_books.py lines 59-92).  A validation failure skips the item; a
successful write bumps `indexed` and records the book in `successful_books`;
the two `except` arms sit OUTSIDE the loop, so a `clientExn` ends the loop and
falls through to audit-and-200, and a `serverExn` returns HTTP 500
immediately, before any audit call. -/
def processBookItems : List BookItem → Nat → List Nat → List Nat → HandlerOut
  | [], indexed, submitted, successful => ackWithAudit indexed submitted successful
  | .invalid _ :: rest, indexed, submitted, successful =>
    processBookItems rest indexed submitted successful
  | .valid i resp :: rest, indexed, submitted, successful =>
    match create_book resp with
    | .ok _ => processBookItems rest (indexed + 1) (submitted ++ [i]) (successful ++ [i])
    | .error .clientExn => ackWithAudit indexed (submitted ++ [i]) successful
    | .error .serverExn =>
      { status := 500, indexed := indexed, submitted := submitted ++ [i],
        audited := [], auditCalls := 0 }

/-- Result of decoding the pubsub envelope `data` field, the input environment
of `_unpack_envelope` (src/routes/pubsub_utils.py).  `items` is the successful
case (base64, UTF-8, JSON and the `PubSubItemBatch` shape all fine); the other
constructors are the three `except` arms: `json.loads` failure, pydantic
`ValidationError` (payload missing the expected items-array shape), and the
catch-all `Exception` arm (for example invalid base64 padding or invalid
UTF-8).  The `PubSubItemBatch` pydantic model itself is absent from src/;
modelled from the spec: the decoded payload is a JSON object with a single
array field `items`. -/
inductive DecodedPayload where
  | items (batch : List BookItem)
  | notJson
  | badShape
  | decodeFailure
deriving DecidableEq, Repr

/-- Embeds `_unpack_envelope` (pubsub_utils.py lines 11-44).  On success
it returns the batch; on each `except` arm it logs and falls off the end of
the function, which in Python returns `None` — hence `Option` with `none`,
NOT an empty batch. -/
def unpack_envelope : DecodedPayload → Option (List BookItem)
  | .items batch => some batch
  | .notJson => none
  | .badShape => none
  | .decodeFailure => none

/-- What the web framework sends back for one request to the books route:
either the handler's response, or a 500 produced by the framework because an
exception escaped the handler. -/
inductive RouteResult where
  | response (out : HandlerOut)
  | unhandledError
deriving DecidableEq, Repr

/-- Embeds the whole books route `handle_pubsub_message`: unpack the envelope,
then iterate over `batch.items`.  When `_unpack_envelope` returned `None`,
the attribute access `batch.items` raises `AttributeError`, which no `except`
arm of the handler catches, so the request fails with an unhandled error
(the framework turns it into HTTP 500). -/
def handle_pubsub_books : DecodedPayload → RouteResult
  | p =>
    match unpack_envelope p with
    | some batch => .response (processBookItems batch 0 [] [])
    | none => .unhandledError

/-- HTTP status the message bus observes: the handler's own status, or 500
when an exception escaped (FastAPI's default for unhandled exceptions). -/
def routeHttpStatus : RouteResult → Nat
  | .response out => out.status
  | .unhandledError => 500

/-- Items on which the write loop keeps going: schema-invalid items (skipped
with a diagnostic) and items whose write call succeeds. -/
def okItem : BookItem → Bool
  | .invalid _ => true
  | .valid _ resp => (create_book resp).isOk

/-- Ids of the items of a batch segment whose write call succeeds: these are
the items that end up in `indexed` and in `successful_books`. -/
def writtenIds : List BookItem → List Nat
  | [] => []
  | .invalid _ :: rest => writtenIds rest
  | .valid i resp :: rest =>
    match create_book resp with
    | .ok _ => i :: writtenIds rest
    | .error _ => writtenIds rest

/-! ## Popularity fan-out with per-entity retry
    (src/clients/book_recommender_api_client_v2.py lines 57-82 and 137-162) -/

/-- Threshold constant of book_recommender_api_client_v2.py line 18. -/
def BOOK_POPULARITY_THRESHOLD : Nat := 5

/-- One attempt of a single-book popularity request, as seen on the wire: a
response with a status code and (when parseable) the `user_count` body field,
an `httpx.ConnectError`, an `httpx.ConnectTimeout`, or any other failure
(for example an `httpx.ReadTimeout`). -/
inductive PopAttempt where
  | response (code : Nat) (user_count : Nat)
  | connectError
  | connectTimeout
  | otherFailure
deriving DecidableEq, Repr

/-- What one call of `_make_book_popularity_request` produces before tenacity
intervenes: a `SingleBookPopularityResponse`, or one of the exceptions the
function can raise or let through. -/
inductive PopReqResult where
  | success (user_count : Nat)
  | retryableExn
  | nonRetryableExn
  | connectErrorExn
  | connectTimeoutExn
  | otherExn
deriving DecidableEq, Repr

/-- Embeds the body of `_make_book_popularity_request` (lines 140-162): a
non-error status yields the count; 429/503/504 raise `RetryableException`;
every other error status raises `NonRetryableException`; connect-level and
other transport failures pass through as themselves. -/
def make_book_popularity_request : PopAttempt → PopReqResult
  | .response code n =>
    if code < 400 then .success n
    else if code = 429 ∨ code = 503 ∨ code = 504 then .retryableExn
    else .nonRetryableExn
  | .connectError => .connectErrorExn
  | .connectTimeout => .connectTimeoutExn
  | .otherFailure => .otherExn

/-- The exception types tenacity is configured to retry on (line 138):
`RetryableException`, `httpx.ConnectError`, `httpx.ConnectTimeout`. -/
def isRetryableExn : PopReqResult → Bool
  | .retryableExn => true
  | .connectErrorExn => true
  | .connectTimeoutExn => true
  | _ => false

/-- Outcome of the tenacity-wrapped call as the fan-out aggregator sees it:
a value, a `RetryError` after the attempt ceiling, or the original exception
re-raised because its type does not match the retry predicate. -/
inductive RetryOutcome where
  | success (user_count : Nat)
  | retryError
  | raised (e : PopReqResult)
deriving DecidableEq, Repr

/-- A tenacity run together with its observable schedule: how many attempts
were made and the sleeps (in milliseconds) between consecutive attempts. -/
structure RetryTrace where
  outcome : RetryOutcome
  attemptsMade : Nat
  waitsMs : List Nat
deriving DecidableEq, Repr

/-- Retry ceiling of line 139: `stop_after_attempt(3)`. -/
def stop_after_attempt : Nat := 3

/-- Inter-attempt delay of line 139: `wait_fixed(.5)` seconds. -/
def wait_fixed_ms : Nat := 500

/-- The tenacity loop: attempt number `i`, `fuel` attempts still allowed.
After a failed attempt, an exception matching the retry predicate either
triggers a sleep and a new attempt, or — when the attempt ceiling is reached
— a `RetryError`; a non-matching exception is re-raised at once.  The
`fuel = 0` branch is unreachable (`retryRun` starts with positive fuel). -/
def retryGo (att : Nat → PopAttempt) : Nat → Nat → List Nat → RetryTrace
  | i, 0, waits => { outcome := .retryError, attemptsMade := i - 1, waitsMs := waits }
  | i, fuel + 1, waits =>
    match make_book_popularity_request (att i) with
    | .success n => { outcome := .success n, attemptsMade := i, waitsMs := waits }
    | r =>
      if isRetryableExn r then
        if fuel = 0 then { outcome := .retryError, attemptsMade := i, waitsMs := waits }
        else retryGo att (i + 1) fuel (waits ++ [wait_fixed_ms])
      else { outcome := .raised r, attemptsMade := i, waitsMs := waits }

/-- One tenacity-wrapped `_make_book_popularity_request` run: attempts are
numbered from 1 and at most `stop_after_attempt` of them happen. -/
def retryRun (att : Nat → PopAttempt) : RetryTrace :=
  retryGo att 1 stop_after_attempt []

/-- Python dict assignment `book_info[result.book_id] = result.user_count`:
replace in place when the key exists, append otherwise. -/
def dictInsert : List (Nat × Nat) → Nat → Nat → List (Nat × Nat)
  | [], k, v => [(k, v)]
  | (a, b) :: t, k, v => if a = k then (k, v) :: t else (a, b) :: dictInsert t k v

/-- Embeds `get_book_popularity` (lines 57-82): one concurrently issued
request per book id; `asyncio.gather(..., return_exceptions=True)` collects
each task's value or exception, and the aggregation loop keeps only the
successes — `RetryError`, `NonRetryableException` and any other exception are
skipped, so no exception ever propagates out of the fan-out.  The environment
`att b k` is the wire outcome of attempt `k` for book `b`. -/
def get_book_popularity (att : Nat → Nat → PopAttempt) (book_ids : List Nat) :
    List (Nat × Nat) :=
  book_ids.foldl (fun m b =>
    match (retryRun (att b)).outcome with
    | .success n => dictInsert m b n
    | _ => m) []

/-! ## In-process caches (src/clients/utils/cache_utils.py) and the v1 client
    (src/clients/book_recommender_api_client.py) -/

/-- TTL of `user_read_book_cache`: `ttl=60 * 10` seconds. -/
def USER_READ_CACHE_TTL : Nat := 600

/-- Maximum population of `user_read_book_cache`: `maxsize=2000`. -/
def USER_READ_CACHE_MAXSIZE : Nat := 2000

/-- Maximum population of `book_exists_cache`: `LRUCache(maxsize=4000)`. -/
def BOOK_EXISTS_CACHE_MAXSIZE : Nat := 4000

/-- State of the module-level `user_read_book_cache` (`cachetools.TTLCache`):
entries `(user_id, book_ids, insertion_time)`.  An entry is live while
`now < insertion_time + ttl`. -/
abbrev UserReadCache := List (Nat × List Nat × Nat)

/-- Membership/read on the TTL cache (`user_id in cache` followed by
`cache[user_id]`): an expired entry behaves as missing. -/
def cacheLookup (c : UserReadCache) (now k : Nat) : Option (List Nat) :=
  match c.find? (fun e => e.1 == k) with
  | some e => if now < e.2.2 + USER_READ_CACHE_TTL then some e.2.1 else none
  | none => none

/-- Size bound of the TTL cache: when over `maxsize`, the oldest entries are
evicted (cachetools pops expired entries first, then by least recent use; the
theorems below only depend on the inserted entry surviving its own
insertion). -/
def dropForSize (l : UserReadCache) : UserReadCache :=
  if USER_READ_CACHE_MAXSIZE < l.length then l.drop (l.length - USER_READ_CACHE_MAXSIZE) else l

/-- Write `cache[user_id] = book_ids` on the TTL cache: replaces any entry of
the same key, drops expired entries, stamps the new entry with the current
time, and enforces the size bound. -/
def cacheInsert (c : UserReadCache) (now k : Nat) (v : List Nat) : UserReadCache :=
  dropForSize (((c.filter (fun e => !(e.1 == k))).filter
    (fun e => decide (now < e.2.2 + USER_READ_CACHE_TTL))) ++ [(k, v, now)])

/-- Outcome of one HTTP query call: a response with a status code and the id
list carried by its JSON body (meaningful on success), or a transport-level
failure (`httpx.HTTPError`). -/
inductive QueryResp where
  | status (code : Nat) (body_ids : List Nat)
  | transportFailure
deriving DecidableEq, Repr

/-- Result of `get_books_read_by_user`: the returned id list, the cache state
after the call, and whether a downstream HTTP GET was performed. -/
structure ReadByUserResult where
  book_ids : List Nat
  cache : UserReadCache
  downstreamCalled : Bool
deriving DecidableEq, Repr

/-- Embeds `BookRecommenderApiClient.get_books_read_by_user` (v1 client,
lines 83-118).  A live cache entry is returned without any HTTP call.  On a
miss, a non-error response returns and caches the body's ids; a 4xx is a
business-valid "user has no activity yet" answer — the empty list is cached
and returned, nothing is raised; a 5xx or a transport failure raises
`BookRecommenderApiServerException`. -/
def get_books_read_by_user (cache : UserReadCache) (now user_id : Nat) (resp : QueryResp) :
    Except ApiExn ReadByUserResult :=
  match cacheLookup cache now user_id with
  | some ids => .ok { book_ids := ids, cache := cache, downstreamCalled := false }
  | none =>
    match resp with
    | .status code ids =>
      if code < 400 then
        .ok { book_ids := ids, cache := cacheInsert cache now user_id ids,
              downstreamCalled := true }
      else if code < 500 then
        .ok { book_ids := [], cache := cacheInsert cache now user_id [],
              downstreamCalled := true }
      else .error .serverExn
    | .transportFailure => .error .serverExn

/-! ## V2 existence query (src/clients/book_recommender_api_client_v2.py
    lines 108-134) and its caller
    (src/services/book_task_enqueuer_service.py lines 25-49) -/

/-- Embeds `BookRecommenderApiClientV2.get_already_indexed_books`.  A
non-error response returns the subset of ids that exist downstream.  A 429
only logs, every other 4xx matches no branch at all — in both cases the
function falls off the end and returns Python `None`, hence `some` ids on
success and `none` on any 4xx.  A 5xx or transport failure raises
`BookRecommenderApiServerException`. -/
def get_already_indexed_books_v2 : QueryResp → Except ApiExn (Option (List Nat))
  | .status code ids =>
    if code < 400 then .ok (some ids)
    else if code < 500 then .ok none
    else .error .serverExn
  | .transportFailure => .error .serverExn

/-- State of the module-level `book_exists_cache` (`cachetools.LRUCache`).
No code under src/ ever reads or writes it. -/
abbrev BookExistsCache := List (Nat × Bool)

/-- Result of one entity-existence check together with the observable fact of
whether the downstream HTTP POST happened. -/
structure ExistsCheckResult where
  result : Except ApiExn (Option (List Nat))
  downstreamCalled : Bool
deriving Repr

/-- The v2 existence check in the presence of the `book_exists_cache`:
`get_already_indexed_books` never consults the cache (the cache is defined in
cache_utils.py but has no reader), so the downstream POST is performed on
every invocation, whatever the cache holds. -/
def get_already_indexed_books_v2_with_cache (cache : BookExistsCache) (resp : QueryResp) :
    ExistsCheckResult :=
  { result := get_already_indexed_books_v2 resp, downstreamCalled := true }

/-- Failure modes of `BookTaskEnqueuerService.enqueue_books_if_necessary`:
a propagated `BookRecommenderApiServerException`, or the `AttributeError`
raised by `already_indexed.book_ids` when `get_already_indexed_books`
returned `None`. -/
inductive EnqueueServiceError where
  | apiServerExn
  | noneBookIdsAccess
deriving DecidableEq, Repr

/-- Python `list(set(a) - set(b))`: the set difference.  CPython iterates a
set in unspecified order; we fix the first-occurrence order of `a` as the
representative, and the theorems about this value are stated at the level of
membership only. -/
def pySetDiff (a b : List Nat) : List Nat :=
  a.dedup.filter (fun x => decide (x ∉ b))

/-- Embeds `BookTaskEnqueuerService._get_candidates_above_indexing_threshold`
(lines 39-49): keep the ids of the popularity mapping whose count meets the
threshold and which appear in the requested list. -/
def get_candidates_above_indexing_threshold (att : Nat → Nat → PopAttempt)
    (book_ids : List Nat) : List Nat :=
  (get_book_popularity att book_ids).filterMap (fun p =>
    if BOOK_POPULARITY_THRESHOLD ≤ p.2 ∧ p.1 ∈ book_ids then some p.1 else none)

/-- Embeds `BookTaskEnqueuerService.enqueue_books_if_necessary` (lines
25-37): popularity-gate the ids, and if any candidate remains, subtract the
ids the batch-existence check reports as already indexed; each survivor is
handed to `task_client.enqueue_book`.  The returned list holds the book ids
forwarded to the task enqueuer, in order.  When the existence check answers
with a 4xx, `already_indexed` is `None` and the attribute access
`already_indexed.book_ids` raises. -/
def enqueue_books_if_necessary (att : Nat → Nat → PopAttempt) (existsResp : QueryResp)
    (book_ids : List Nat) : Except EnqueueServiceError (List Nat) :=
  let candidates := get_candidates_above_indexing_threshold att book_ids
  if candidates.isEmpty then .ok []
  else
    match get_already_indexed_books_v2 existsResp with
    | .error _ => .error .apiServerExn
    | .ok none => .error .noneBookIdsAccess
    | .ok (some existing) => .ok (pySetDiff candidates existing)

/-! ## User review service (src/services/user_review_service.py) -/

/-- One validated `PubSubUserReviewV1` record (the two timestamps play no
role in the control flow and are omitted; `user_rating` is kept so that two
reviews of the same pair can still be distinct values, which matters for
Python's `list.remove` semantics). -/
structure UserReview where
  user_id : Nat
  book_id : Nat
  user_rating : Nat
deriving DecidableEq, Repr

/-- CPython semantics of `for review in candidates: if ...:
candidates.remove(review)` inside `_remove_reviews_already_indexed` (lines
57-65): the list iterator keeps a position index that advances every
iteration even when the body removed an element at or before the current
position, and `list.remove` deletes the first element equal to its argument.
The fuel argument only bounds the recursion: the position grows by 1 per
step while the list never grows, so `l.length` steps always suffice and the
`fuel = 0` branch is never reached from `_remove_reviews_already_indexed`. -/
def removeLoopF (books_read : List Nat) : Nat → Nat → List UserReview → List UserReview
  | 0, _, l => l
  | fuel + 1, i, l =>
    if h : i < l.length then
      let x := l.get ⟨i, h⟩
      if x.book_id ∈ books_read then removeLoopF books_read fuel (i + 1) (l.erase x)
      else removeLoopF books_read fuel (i + 1) l
    else l

/-- Embeds `UserReviewService._remove_reviews_already_indexed`: copy the
group, fetch the owner's existing book set (here already resolved to
`books_read`), and run the remove-while-iterating loop. -/
def remove_reviews_already_indexed (books_read : List Nat)
    (user_reviews : List UserReview) : List UserReview :=
  removeLoopF books_read user_reviews.length 0 user_reviews

/-- One step of the partition loop of `process_pubsub_batch_message` (lines
29-33): append the review to its owner's group, creating the group at the
end on first sight (Python dict preserves insertion order). -/
def addToGroups : List (Nat × List UserReview) → UserReview → List (Nat × List UserReview)
  | [], r => [(r.user_id, [r])]
  | (u, g) :: rest, r =>
    if r.user_id = u then (u, g ++ [r]) :: rest
    else (u, g) :: addToGroups rest r

/-- The owner partition of a validated activity batch, groups in first-seen
order, relative order preserved inside each group. -/
def partitionByUser (reviews : List UserReview) : List (Nat × List UserReview) :=
  reviews.foldl addToGroups []

/-- Observable outcome of `process_pubsub_batch_message`: the aggregate
`indexed` count and the book ids handed to `task_client.enqueue_book`, in
call order. -/
structure ReviewServiceOut where
  indexed : Nat
  enqueuedBookIds : List Nat
deriving DecidableEq, Repr

/-- What the v1 client's `get_already_indexed_books` hands back to the
service on its non-raising paths: on success the `ApiBookExistsBatchResponse`
pydantic MODEL wrapping the id list — not the bare list — and Python `None`
on the 4xx fall-through. -/
inductive BooksInApiValue where
  | model (book_ids : List Nat)
  | pyNone
deriving DecidableEq, Repr

/-- Embeds `BookRecommenderApiClient.get_already_indexed_books` (v1 client,
lines 120-146), which mirrors the v2 version branch for branch: success
returns the response model, a 429 only logs and every other 4xx matches no
branch (both fall off the end: Python `None`), and a 5xx or transport
failure raises `BookRecommenderApiServerException`. -/
def get_already_indexed_books_v1 : QueryResp → Except ApiExn BooksInApiValue
  | .status code ids =>
    if code < 400 then .ok (.model ids)
    else if code < 500 then .ok .pyNone
    else .error .serverExn
  | .transportFailure => .error .serverExn

/-- The Python exception class of the crash below. -/
inductive PyExn where
  | typeError
deriving DecidableEq, Repr

/-- CPython semantics of `set(books_in_api)` in
`_remove_books_already_indexed` (user_review_service.py line 70): iterating
a pydantic v1 model yields `(field_name, value)` tuples, here
`('book_ids', [...])`, whose list component is unhashable — `TypeError`;
and `set(None)` is a `TypeError` as well.  So the expression raises on
every value the client can return; no branch yields a set of ids. -/
def pySetBooksInApi : BooksInApiValue → Except PyExn (List Nat)
  | .model _ => .error .typeError
  | .pyNone => .error .typeError

/-- Exceptions escaping the scrape-filter step of the service: the
propagated server exception of the existence query, or the `TypeError`
raised by `set(books_in_api)`. -/
inductive ScrapeStepError where
  | apiServerExn
  | pyTypeError
deriving DecidableEq, Repr

/-- Embeds `UserReviewService._remove_books_already_indexed` (lines 67-72):
fetch the existence answer for the candidate ids and subtract it.  The
subtraction (`set(books_in_reviews) - set(books_in_api)`) is in the source
but unreachable: a 5xx/transport answer has already raised the server
exception, and on every other answer `set(books_in_api)` raises `TypeError`
first. -/
def remove_books_already_indexed (existsResp : QueryResp)
    (books_in_reviews : List Nat) : Except ScrapeStepError (List Nat) :=
  match get_already_indexed_books_v1 existsResp with
  | .error _ => .error .apiServerExn
  | .ok v =>
    match pySetBooksInApi v with
    | .error .typeError => .error .pyTypeError
    | .ok ids => .ok (pySetDiff books_in_reviews ids)

/-- Outcome of one `process_pubsub_batch_message` run: a normal return, or
an exception escaping the service; `sofar` records the observable calls
that had already happened when the exception was raised (writes counted in
`indexed`, ids already handed to `enqueue_book`). -/
inductive ReviewRunResult where
  | ok (out : ReviewServiceOut)
  | raised (e : ScrapeStepError) (sofar : ReviewServiceOut)
deriving DecidableEq, Repr

/-- The ids that were handed to `task_client.enqueue_book` during a run,
whether or not the run later raised. -/
def enqueuedOf : ReviewRunResult → List Nat
  | .ok out => out.enqueuedBookIds
  | .raised _ sofar => sofar.enqueuedBookIds

/-- The per-group loop of `process_pubsub_batch_message` (lines 35-53):
filter the group's reviews and write the survivors (`createIndexed` is the
`indexed` count the write API answers); then compute the books to scrape
from ALL book ids referenced in the group and enqueue each survivor — a
step that in fact always raises (see `remove_books_already_indexed`),
aborting the service with the writes already performed and nothing
enqueued. -/
def processGroups (booksReadByUser : Nat → List Nat)
    (existsResp : List Nat → QueryResp) (createIndexed : List UserReview → Nat) :
    List (Nat × List UserReview) → ReviewServiceOut → ReviewRunResult
  | [], acc => .ok acc
  | g :: rest, acc =>
    let remaining := remove_reviews_already_indexed (booksReadByUser g.1) g.2
    let indexed2 := if remaining.isEmpty then acc.indexed
      else acc.indexed + createIndexed remaining
    match remove_books_already_indexed (existsResp (g.2.map UserReview.book_id))
        (g.2.map UserReview.book_id) with
    | .error e => .raised e { indexed := indexed2, enqueuedBookIds := acc.enqueuedBookIds }
    | .ok books_to_scrape =>
      processGroups booksReadByUser existsResp createIndexed rest
        { indexed := indexed2, enqueuedBookIds := acc.enqueuedBookIds ++ books_to_scrape }

/-- Embeds `UserReviewService.process_pubsub_batch_message` (lines 25-55):
partition by owner, then run the per-group loop.  `existsResp` is the wire
answer the existence endpoint would give for a request list; no popularity
query exists anywhere on this path. -/
def process_pubsub_batch_message (booksReadByUser : Nat → List Nat)
    (existsResp : List Nat → QueryResp) (createIndexed : List UserReview → Nat)
    (reviews : List UserReview) : ReviewRunResult :=
  processGroups booksReadByUser existsResp createIndexed (partitionByUser reviews)
    { indexed := 0, enqueuedBookIds := [] }

/-- Modelled from the spec's words, for comparison with the implementation
(claim C2): the distinct entity ids referenced anywhere in the validated
batch, restricted to those whose observed popularity count meets the fixed
threshold and which are not already indexed downstream. -/
def specScheduledBooks (reviews : List UserReview) (popularity : Nat → Option Nat)
    (alreadyIndexed : List Nat) : List Nat :=
  (reviews.map UserReview.book_id).dedup.filter (fun b =>
    match popularity b with
    | some c => decide (BOOK_POPULARITY_THRESHOLD ≤ c ∧ b ∉ alreadyIndexed)
    | none => false)

/-! ## Task client (src/clients/task_client.py) -/

/-- The properties that parameterize every task path
(src/dependencies.py). -/
structure TaskProperties where
  gcp_project_name : String
  cloud_task_region : String
  task_queue_name : String
deriving DecidableEq, Repr

/-- Embeds `TaskClient._generate_task_path` (lines 164-177): the fully
qualified Cloud Tasks path of the task, a pure function of the properties
and the task name (`CloudTasksClient.task_path` format). -/
def generate_task_path (p : TaskProperties) (task_name : String) : String :=
  "projects/" ++ p.gcp_project_name ++ "/locations/" ++ p.cloud_task_region ++
    "/queues/" ++ p.task_queue_name ++ "/tasks/" ++ task_name

/-- The deterministic per-book task name of `enqueue_book` line 93:
`task_name = f"book-{book_id}"`. -/
def bookTaskName (book_id : Nat) : String := "book-" ++ toString book_id

/-- Embeds `TaskClient.enqueue_book` (lines 79-112).  The durable queue is
threaded as the list of task names it already holds; its enqueue/dedup
contract (out of scope per the spec, §6: the queue "returns either a job
handle path or signals a pre-existing identical job") is that `create_task`
returns the task on a fresh name and raises `AlreadyExists` on a known one.
The client catches `AlreadyExists` and reports the string `"duplicate"` as a
normal value; any transport failure reaching the queue is NOT caught and
propagates (`.error`). -/
def enqueue_book (p : TaskProperties) (transportOk : Bool) (queue : List String)
    (book_id : Nat) : Except Unit (String × List String) :=
  let name := generate_task_path p (bookTaskName book_id)
  if transportOk then
    if name ∈ queue then .ok ("duplicate", queue)
    else .ok (name, queue ++ [name])
  else .error ()

/-- Two sequential submissions of the same book id against the same queue —
within one batch or across two batches — returning the two reported
outcomes. -/
def enqueue_book_twice (p : TaskProperties) (queue : List String) (book_id : Nat) :
    String × String :=
  match enqueue_book p true queue book_id with
  | .ok (r1, q1) =>
    match enqueue_book p true q1 book_id with
    | .ok (r2, _) => (r1, r2)
    | .error _ => (r1, "transport-error")
  | .error _ => ("transport-error", "transport-error")

/-- Number of reported outcomes that are fresh job handles rather than the
`"duplicate"` marker. -/
def nonDuplicateCount (rs : List String) : Nat :=
  (rs.filter (fun r => decide (r ≠ "duplicate"))).length

theorem processBookItems_ok_segment (pre : List BookItem) :
    ∀ (rest : List BookItem) (ind : Nat) (sub suc : List Nat),
    (∀ it ∈ pre, okItem it = true) →
    processBookItems (pre ++ rest) ind sub suc =
      processBookItems rest (ind + (writtenIds pre).length)
        (sub ++ writtenIds pre) (suc ++ writtenIds pre) := by
  induction pre with
  | nil => intro rest ind sub suc _; simp [writtenIds]
  | cons it pre ih =>
    intro rest ind sub suc h
    have hit : okItem it = true := h it (List.mem_cons_self it pre)
    have hpre : ∀ x ∈ pre, okItem x = true := fun x hx => h x (List.mem_cons_of_mem it hx)
    cases it with
    | invalid i =>
      simp only [List.cons_append, processBookItems, writtenIds]
      exact ih rest ind sub suc hpre
    | valid i resp =>
      have hok : create_book resp = .ok () := by
        cases hcb : create_book resp with
        | ok u => cases u; rfl
        | error e =>
          simp [okItem, hcb, Except.isOk, Except.toBool] at hit
      simp only [List.cons_append, processBookItems, hok, writtenIds, List.append_eq]
      rw [ih rest (ind + 1) (sub ++ [i]) (suc ++ [i]) hpre]
      congr 1
      · simp only [List.length_cons]; omega
      · simp
      · simp

/-- C1 (counterexample).  The claim predicts that in a 2-item batch whose
first item gets a 4xx write response, the other item is still submitted and
the acknowledgement reports `indexed = N - 1 = 1`.  In the code the `except
BookRecommenderApiClientException` arm sits outside the `for` loop, so the
loop stops: only item 1 is ever submitted, `indexed` stays 0 (not 1), item 2
is never written, and nothing is audited. -/
theorem books_client_error_counterexample :
    handle_pubsub_books (.items [BookItem.valid 1 (.status 422), BookItem.valid 2 (.status 200)]) =
      .response { status := 200, indexed := 0, submitted := [1], audited := [], auditCalls := 0 } ∧
    ¬ ((processBookItems [BookItem.valid 1 (.status 422), BookItem.valid 2 (.status 200)]
          0 [] []).indexed = 1 ∧
        2 ∈ (processBookItems [BookItem.valid 1 (.status 422), BookItem.valid 2 (.status 200)]
          0 [] []).submitted) := by
  decide

/-- C1 (amended).  When the write of one item of a catalog batch receives a
4xx response and every earlier item either fails validation or is written
successfully, the handler stops the write phase at that item: the items
before it are submitted and audited, the failing item is submitted, the items
after it are never submitted, the handler still responds HTTP 200, and
`indexed` equals the number of items written before the failure (so `N - 1`
only when the failing item is the last one). -/
theorem books_client_error_stops_batch
    (pre : List BookItem) (failId failCode : Nat) (post : List BookItem)
    (hpre : ∀ it ∈ pre, okItem it = true)
    (h1 : 400 ≤ failCode) (h2 : failCode < 500) :
    handle_pubsub_books (.items (pre ++ BookItem.valid failId (.status failCode) :: post)) =
      .response (ackWithAudit (writtenIds pre).length
        (writtenIds pre ++ [failId]) (writtenIds pre)) := by
  have hcb : create_book (.status failCode) = .error .clientExn := by
    simp only [create_book]
    rw [if_neg (by omega), if_pos h2]
  simp only [handle_pubsub_books, unpack_envelope]
  rw [processBookItems_ok_segment pre _ 0 [] [] hpre]
  simp [processBookItems, hcb]

/-- C1 (witness): a concrete 3-item batch whose middle item receives a 404. -/
theorem books_client_error_stops_batch_witness :
    handle_pubsub_books (.items
        [BookItem.valid 10 (.status 200), BookItem.valid 11 (.status 404),
          BookItem.valid 12 (.status 200)]) =
      .response (ackWithAudit (writtenIds [BookItem.valid 10 (.status 200)]).length
        (writtenIds [BookItem.valid 10 (.status 200)] ++ [11])
        (writtenIds [BookItem.valid 10 (.status 200)])) :=
  books_client_error_stops_batch [BookItem.valid 10 (.status 200)] 11 404
    [BookItem.valid 12 (.status 200)] (by decide) (by decide) (by decide)

/-- C3 (code bug).  On every malformed payload (`notJson`, `badShape`,
`decodeFailure`) `_unpack_envelope` logs and implicitly returns Python `None`
— not an empty sequence of items — and the books handler then evaluates
`batch.items` on `None`, raising an `AttributeError` that no `except` arm
catches, so the request fails with HTTP 500 and the bus redelivers, instead
of the claimed empty-sequence-plus-200 acknowledgement. -/
theorem malformed_payload_crashes_books_handler :
    unpack_envelope .notJson = none ∧
    unpack_envelope .badShape = none ∧
    unpack_envelope .decodeFailure = none ∧
    handle_pubsub_books .notJson = .unhandledError ∧
    routeHttpStatus (handle_pubsub_books .notJson) = 500 ∧
    routeHttpStatus (handle_pubsub_books .badShape) = 500 ∧
    routeHttpStatus (handle_pubsub_books .decodeFailure) = 500 := by
  decide

/-- C5 (confirmed).  When some write call of a catalog batch receives a 5xx
response or a transport failure, and every item before it either fails
validation or is written successfully, the handler stops at that item (no
later item is submitted), responds HTTP 500 so the bus redelivers, and
performs zero audit-publish calls — also for the items already written
successfully before the failure. -/
theorem books_server_error_aborts_batch
    (pre : List BookItem) (failId : Nat) (failResp : WriteResp) (post : List BookItem)
    (hpre : ∀ it ∈ pre, okItem it = true)
    (hresp : failResp = .transportFailure ∨ ∃ c, failResp = .status c ∧ 500 ≤ c) :
    handle_pubsub_books (.items (pre ++ BookItem.valid failId failResp :: post)) =
      .response { status := 500, indexed := (writtenIds pre).length,
                  submitted := writtenIds pre ++ [failId],
                  audited := [], auditCalls := 0 } := by
  have hcb : create_book failResp = .error .serverExn := by
    rcases hresp with h | ⟨c, hc, h5⟩
    · rw [h]; rfl
    · rw [hc]
      simp only [create_book]
      rw [if_neg (by omega), if_neg (by omega)]
  simp only [handle_pubsub_books, unpack_envelope]
  rw [processBookItems_ok_segment pre _ 0 [] [] hpre]
  simp [processBookItems, hcb]

/-- C5 (witness): a concrete batch where the second item receives a 503 after
a successful first write. -/
theorem books_server_error_aborts_batch_witness :
    handle_pubsub_books (.items
        [BookItem.valid 1 (.status 204), BookItem.valid 2 (.status 503),
          BookItem.valid 3 (.status 200)]) =
      .response { status := 500, indexed := (writtenIds [BookItem.valid 1 (.status 204)]).length,
                  submitted := writtenIds [BookItem.valid 1 (.status 204)] ++ [2],
                  audited := [], auditCalls := 0 } :=
  books_server_error_aborts_batch [BookItem.valid 1 (.status 204)] 2 (.status 503)
    [BookItem.valid 3 (.status 200)] (by decide) (Or.inr ⟨503, rfl, by decide⟩)

theorem beq_false_of_ne {j k : Nat} (h : j ≠ k) : (j == k) = false := by
  cases hjk : (j == k)
  · rfl
  · exact absurd (by simpa using hjk) h

theorem lookup_dictInsert_self (m : List (Nat × Nat)) (k v : Nat) :
    (dictInsert m k v).lookup k = some v := by
  induction m with
  | nil => simp [dictInsert, List.lookup]
  | cons p t ih =>
    obtain ⟨a, b⟩ := p
    by_cases h : a = k
    · simp [dictInsert, h, List.lookup]
    · simp [dictInsert, if_neg h, List.lookup, beq_false_of_ne (Ne.symm h), ih]

theorem lookup_dictInsert_ne (m : List (Nat × Nat)) (k v j : Nat) (h : j ≠ k) :
    (dictInsert m k v).lookup j = m.lookup j := by
  induction m with
  | nil => simp [dictInsert, List.lookup, beq_false_of_ne h]
  | cons p t ih =>
    obtain ⟨a, b⟩ := p
    by_cases ha : a = k
    · subst ha
      simp [dictInsert, List.lookup, beq_false_of_ne h]
    · simp only [dictInsert, if_neg ha, List.lookup]
      cases hja : (j == a) <;> simp [hja, ih]

theorem popFold_lookup_not_mem (att : Nat → Nat → PopAttempt) (b : Nat) :
    ∀ (ids : List Nat) (m : List (Nat × Nat)), b ∉ ids →
    (ids.foldl (fun m i =>
      match (retryRun (att i)).outcome with
      | .success n => dictInsert m i n
      | _ => m) m).lookup b = m.lookup b := by
  intro ids
  induction ids with
  | nil => intro m _; rfl
  | cons a t ih =>
    intro m hb
    have hba : b ≠ a := fun h => hb (h ▸ List.mem_cons_self a t)
    have hbt : b ∉ t := fun h => hb (List.mem_cons_of_mem a h)
    simp only [List.foldl_cons]
    rw [ih _ hbt]
    cases ho : (retryRun (att a)).outcome with
    | success n => simp [ho, lookup_dictInsert_ne _ _ _ _ hba]
    | retryError => simp [ho]
    | raised e => simp [ho]

theorem popFold_lookup_failure (att : Nat → Nat → PopAttempt) (b : Nat)
    (hb : ∀ n, (retryRun (att b)).outcome ≠ .success n) :
    ∀ (ids : List Nat) (m : List (Nat × Nat)),
    (ids.foldl (fun m i =>
      match (retryRun (att i)).outcome with
      | .success n => dictInsert m i n
      | _ => m) m).lookup b = m.lookup b := by
  intro ids
  induction ids with
  | nil => intro m; rfl
  | cons a t ih =>
    intro m
    simp only [List.foldl_cons]
    rw [ih]
    by_cases hba : b = a
    · subst hba
      cases ho : (retryRun (att b)).outcome with
      | success n => exact absurd ho (hb n)
      | retryError => simp [ho]
      | raised e => simp [ho]
    · cases ho : (retryRun (att a)).outcome with
      | success n => simp [ho, lookup_dictInsert_ne _ _ _ _ hba]
      | retryError => simp [ho]
      | raised e => simp [ho]

theorem popFold_lookup_success (att : Nat → Nat → PopAttempt) (b n : Nat)
    (hb : (retryRun (att b)).outcome = .success n) :
    ∀ (ids : List Nat) (m : List (Nat × Nat)), b ∈ ids →
    (ids.foldl (fun m i =>
      match (retryRun (att i)).outcome with
      | .success n => dictInsert m i n
      | _ => m) m).lookup b = some n := by
  intro ids
  induction ids with
  | nil => intro m h; exact absurd h (List.not_mem_nil b)
  | cons a t ih =>
    intro m hmem
    simp only [List.foldl_cons]
    by_cases hbt : b ∈ t
    · exact ih _ hbt
    · have hba : b = a := by
        rcases List.mem_cons.mp hmem with h | h
        · exact h
        · exact absurd h hbt
      subst hba
      rw [popFold_lookup_not_mem att b t _ hbt]
      simp [hb, lookup_dictInsert_self]

theorem retryGo_trace (att : Nat → PopAttempt) :
    ∀ (fuel i : Nat) (waits : List Nat), 1 ≤ fuel →
    i ≤ (retryGo att i fuel waits).attemptsMade ∧
    (retryGo att i fuel waits).attemptsMade + 1 ≤ i + fuel ∧
    (retryGo att i fuel waits).waitsMs =
      waits ++ List.replicate ((retryGo att i fuel waits).attemptsMade - i) wait_fixed_ms := by
  intro fuel
  induction fuel with
  | zero => intro i waits h; exact absurd h (by omega)
  | succ f ihf =>
    intro i waits _
    cases hr : make_book_popularity_request (att i)
    case success m =>
      simp only [retryGo, hr]
      exact ⟨le_rfl, by omega, by simp⟩
    case nonRetryableExn =>
      simp only [retryGo, hr, isRetryableExn, Bool.false_eq_true, if_false]
      exact ⟨le_rfl, by omega, by simp⟩
    case otherExn =>
      simp only [retryGo, hr, isRetryableExn, Bool.false_eq_true, if_false]
      exact ⟨le_rfl, by omega, by simp⟩
    all_goals (
      by_cases hf : f = 0
      · subst hf
        simp only [retryGo, hr, isRetryableExn, if_true, if_pos rfl]
        exact ⟨le_rfl, by omega, by simp⟩
      · obtain ⟨ih1, ih2, ih3⟩ := ihf (i + 1) (waits ++ [wait_fixed_ms])
          (Nat.one_le_iff_ne_zero.mpr hf)
        simp only [retryGo, hr, isRetryableExn, if_true, if_neg hf]
        refine ⟨by omega, by omega, ?_⟩
        rw [ih3]
        have hsub : (retryGo att (i + 1) f (waits ++ [wait_fixed_ms])).attemptsMade - i
            = ((retryGo att (i + 1) f (waits ++ [wait_fixed_ms])).attemptsMade - (i + 1)) + 1 := by
          omega
        rw [hsub, List.replicate_succ]
        simp)

theorem retryGo_success_iff (att : Nat → PopAttempt) :
    ∀ (fuel i : Nat) (waits : List Nat) (n : Nat), 1 ≤ fuel →
    ((retryGo att i fuel waits).outcome = .success n ↔
      ∃ k, i ≤ k ∧ k + 1 ≤ i + fuel ∧
        make_book_popularity_request (att k) = .success n ∧
        (List.range' i (k - i)).all
          (fun j => isRetryableExn (make_book_popularity_request (att j))) = true) := by
  intro fuel
  induction fuel with
  | zero => intro i waits n h; exact absurd h (by omega)
  | succ f ihf =>
    intro i waits n _
    cases hr : make_book_popularity_request (att i)
    case success m =>
      simp only [retryGo, hr]
      constructor
      · intro h
        have hmn : m = n := by
          simpa using h
        exact ⟨i, le_rfl, by omega, by rw [hr, hmn], by simp⟩
      · rintro ⟨k, hk1, _, hk3, hk4⟩
        by_cases hki : k = i
        · subst hki
          rw [hr] at hk3
          simpa using hk3
        · have hik : i < k := lt_of_le_of_ne hk1 (Ne.symm hki)
          have hmem : i ∈ List.range' i (k - i) := by
            rw [List.mem_range'_1]
            omega
          have := List.all_eq_true.mp hk4 i hmem
          rw [hr] at this
          simp [isRetryableExn] at this
    case nonRetryableExn =>
      simp only [retryGo, hr, isRetryableExn, Bool.false_eq_true, if_false]
      constructor
      · intro h; simp at h
      · rintro ⟨k, hk1, _, hk3, hk4⟩
        by_cases hki : k = i
        · subst hki
          rw [hr] at hk3
          simp at hk3
        · have hik : i < k := lt_of_le_of_ne hk1 (Ne.symm hki)
          have hmem : i ∈ List.range' i (k - i) := by
            rw [List.mem_range'_1]
            omega
          have := List.all_eq_true.mp hk4 i hmem
          rw [hr] at this
          simp [isRetryableExn] at this
    case otherExn =>
      simp only [retryGo, hr, isRetryableExn, Bool.false_eq_true, if_false]
      constructor
      · intro h; simp at h
      · rintro ⟨k, hk1, _, hk3, hk4⟩
        by_cases hki : k = i
        · subst hki
          rw [hr] at hk3
          simp at hk3
        · have hik : i < k := lt_of_le_of_ne hk1 (Ne.symm hki)
          have hmem : i ∈ List.range' i (k - i) := by
            rw [List.mem_range'_1]
            omega
          have := List.all_eq_true.mp hk4 i hmem
          rw [hr] at this
          simp [isRetryableExn] at this
    all_goals (
      by_cases hf : f = 0
      · subst hf
        simp only [retryGo, hr, isRetryableExn, if_true, if_pos rfl]
        constructor
        · intro h; simp at h
        · rintro ⟨k, hk1, hk2, hk3, _⟩
          have hki : k = i := by omega
          subst hki
          rw [hr] at hk3
          simp at hk3
      · simp only [retryGo, hr, isRetryableExn, if_true, if_neg hf]
        rw [ihf (i + 1) (waits ++ [wait_fixed_ms]) n (Nat.one_le_iff_ne_zero.mpr hf)]
        constructor
        · rintro ⟨k, hk1, hk2, hk3, hk4⟩
          refine ⟨k, by omega, by omega, hk3, ?_⟩
          have hsub : k - i = (k - (i + 1)) + 1 := by omega
          rw [hsub, List.range'_succ]
          rw [List.all_cons, hr]
          simp only [isRetryableExn, Bool.true_and]
          exact hk4
        · rintro ⟨k, hk1, hk2, hk3, hk4⟩
          have hki : k ≠ i := by
            intro h
            subst h
            rw [hr] at hk3
            simp at hk3
          have hik : i + 1 ≤ k := by omega
          refine ⟨k, hik, by omega, hk3, ?_⟩
          have hsub : k - i = (k - (i + 1)) + 1 := by omega
          rw [hsub, List.range'_succ] at hk4
          simp only [List.all_cons, Bool.and_eq_true] at hk4
          exact hk4.2)

/-- C4 (confirmed).  The popularity fan-out returns a mapping containing
exactly the book ids whose per-entity request ultimately succeeded; a request
is attempted at most 3 times (numbered from 1) with a fixed 500 ms wait
between consecutive attempts; an attempt outcome of 429/503/504 or a
connect-level failure is the retryable class, and success within the attempt
ceiling requires every earlier attempt to have been retryable — any
non-retryable error ends the request at once, and a request that does not
succeed is simply omitted from the mapping.  The aggregator itself is a total
function: no per-entity exception escapes the fan-out. -/
theorem popularity_fanout_retry_policy (att : Nat → Nat → PopAttempt) (ids : List Nat) :
    (∀ b n, (get_book_popularity att ids).lookup b = some n ↔
      b ∈ ids ∧ (retryRun (att b)).outcome = .success n) ∧
    (∀ b, 1 ≤ (retryRun (att b)).attemptsMade ∧
      (retryRun (att b)).attemptsMade ≤ stop_after_attempt ∧
      (retryRun (att b)).waitsMs =
        List.replicate ((retryRun (att b)).attemptsMade - 1) wait_fixed_ms) ∧
    (∀ b n, (retryRun (att b)).outcome = .success n ↔
      ∃ k, 1 ≤ k ∧ k ≤ stop_after_attempt ∧
        make_book_popularity_request (att b k) = .success n ∧
        (List.range' 1 (k - 1)).all
          (fun j => isRetryableExn (make_book_popularity_request (att b j))) = true) := by
  refine ⟨?_, ?_, ?_⟩
  · intro b n
    constructor
    · intro h
      simp only [get_book_popularity] at h
      by_cases hb : b ∈ ids
      · cases ho : (retryRun (att b)).outcome with
        | success m =>
          have hl := popFold_lookup_success att b m ho ids [] hb
          rw [hl] at h
          have hmn : m = n := by simpa using h
          subst hmn
          exact ⟨hb, rfl⟩
        | retryError =>
          have hfail : ∀ j, (retryRun (att b)).outcome ≠ .success j := by
            intro j hj
            rw [ho] at hj
            simp at hj
          have hl := popFold_lookup_failure att b hfail ids []
          rw [hl] at h
          simp [List.lookup] at h
        | raised e =>
          have hfail : ∀ j, (retryRun (att b)).outcome ≠ .success j := by
            intro j hj
            rw [ho] at hj
            simp at hj
          have hl := popFold_lookup_failure att b hfail ids []
          rw [hl] at h
          simp [List.lookup] at h
      · have hl := popFold_lookup_not_mem att b ids [] hb
        rw [hl] at h
        simp [List.lookup] at h
    · rintro ⟨hb, ho⟩
      simp only [get_book_popularity]
      exact popFold_lookup_success att b n ho ids [] hb
  · intro b
    obtain ⟨h1, h2, h3⟩ :=
      retryGo_trace (att b) stop_after_attempt 1 [] (by norm_num [stop_after_attempt])
    rw [show retryRun (att b) = retryGo (att b) 1 stop_after_attempt [] from rfl]
    refine ⟨h1, by omega, by simpa using h3⟩
  · intro b n
    have hiff :=
      retryGo_success_iff (att b) stop_after_attempt 1 [] n (by norm_num [stop_after_attempt])
    rw [show retryRun (att b) = retryGo (att b) 1 stop_after_attempt [] from rfl, hiff]
    constructor
    · rintro ⟨k, hk1, hk2, hk3, hk4⟩
      exact ⟨k, hk1, by omega, hk3, hk4⟩
    · rintro ⟨k, hk1, hk2, hk3, hk4⟩
      exact ⟨k, hk1, by omega, hk3, hk4⟩

theorem find?_append_key (X : UserReadCache) (k : Nat) (v : List Nat) (now : Nat)
    (hX : ∀ e ∈ X, (e.1 == k) = false) :
    (X ++ [(k, v, now)]).find? (fun e => e.1 == k) = some (k, v, now) := by
  induction X with
  | nil => simp [List.find?]
  | cons e t ih =>
    have he := hX e (List.mem_cons_self e t)
    simp only [List.cons_append, List.find?, he]
    exact ih (fun x hx => hX x (List.mem_cons_of_mem e hx))

theorem cacheLookup_cacheInsert_self (c : UserReadCache) (now k : Nat) (v : List Nat) :
    cacheLookup (cacheInsert c now k v) now k = some v := by
  have hX : ∀ e ∈ (c.filter (fun e => !(e.1 == k))).filter
      (fun e => decide (now < e.2.2 + USER_READ_CACHE_TTL)), (e.1 == k) = false := by
    intro e he
    have h1 : e ∈ c.filter (fun e => !(e.1 == k)) := List.mem_of_mem_filter he
    have h2 := List.of_mem_filter h1
    simpa using h2
  have hfind : (cacheInsert c now k v).find? (fun e => e.1 == k) = some (k, v, now) := by
    rw [cacheInsert, dropForSize]
    by_cases hlen : USER_READ_CACHE_MAXSIZE <
        ((c.filter (fun e => !(e.1 == k))).filter
          (fun e => decide (now < e.2.2 + USER_READ_CACHE_TTL)) ++ [(k, v, now)]).length
    · rw [if_pos hlen]
      have hd : ((c.filter (fun e => !(e.1 == k))).filter
            (fun e => decide (now < e.2.2 + USER_READ_CACHE_TTL)) ++ [(k, v, now)]).length -
          USER_READ_CACHE_MAXSIZE ≤
          ((c.filter (fun e => !(e.1 == k))).filter
            (fun e => decide (now < e.2.2 + USER_READ_CACHE_TTL))).length := by
        simp only [List.length_append, List.length_cons, List.length_nil,
          USER_READ_CACHE_MAXSIZE]
        omega
      rw [List.drop_append_of_le_length hd]
      exact find?_append_key _ k v now (fun e he => hX e (List.mem_of_mem_drop he))
    · rw [if_neg hlen]
      exact find?_append_key _ k v now hX
  rw [cacheLookup, hfind]
  simp [USER_READ_CACHE_TTL]

/-- C8 (confirmed).  On a cache miss, an owner-activity existence query
answered with a 4xx returns the empty list as a valid business answer, caches
that empty list under the owner id (a following lookup at the same time hits
it), and raises nothing; a 5xx or a transport failure on the same query
raises the server exception that propagates to the caller. -/
theorem books_read_by_user_4xx_is_business_answer
    (cache : UserReadCache) (now user code : Nat) (ids : List Nat)
    (hmiss : cacheLookup cache now user = none) (h4a : 400 ≤ code) (h4b : code < 500) :
    get_books_read_by_user cache now user (.status code ids) =
      .ok { book_ids := [], cache := cacheInsert cache now user [],
            downstreamCalled := true } ∧
    cacheLookup (cacheInsert cache now user []) now user = some [] ∧
    (∀ code5 ids5, 500 ≤ code5 →
      get_books_read_by_user cache now user (.status code5 ids5) = .error .serverExn) ∧
    get_books_read_by_user cache now user .transportFailure = .error .serverExn := by
  refine ⟨?_, cacheLookup_cacheInsert_self cache now user [], ?_, ?_⟩
  · simp only [get_books_read_by_user, hmiss]
    rw [if_neg (by omega), if_pos h4b]
  · intro code5 ids5 h5
    simp only [get_books_read_by_user, hmiss]
    rw [if_neg (by omega), if_neg (by omega)]
  · simp only [get_books_read_by_user, hmiss]

/-- C8 (witness): empty cache, owner 1, a 404 answer; then a 503 answer and a
transport failure on the same query. -/
theorem books_read_by_user_4xx_witness :
    get_books_read_by_user [] 0 1 (.status 404 [5]) =
      .ok { book_ids := [], cache := cacheInsert [] 0 1 [], downstreamCalled := true } ∧
    cacheLookup (cacheInsert [] 0 1 []) 0 1 = some [] ∧
    get_books_read_by_user [] 0 1 (.status 503 [9]) = .error .serverExn ∧
    get_books_read_by_user [] 0 1 .transportFailure = .error .serverExn :=
  ⟨(books_read_by_user_4xx_is_business_answer [] 0 1 404 [5] rfl (by decide) (by decide)).1,
   (books_read_by_user_4xx_is_business_answer [] 0 1 404 [5] rfl (by decide) (by decide)).2.1,
   (books_read_by_user_4xx_is_business_answer [] 0 1 404 [5] rfl (by decide)
     (by decide)).2.2.1 503 [9] (by decide),
   (books_read_by_user_4xx_is_business_answer [] 0 1 404 [5] rfl (by decide) (by decide)).2.2.2⟩

/-- C9 (counterexample).  The claim requires a hit in the size-bounded LRU
entity-existence cache to short-circuit the authoritative downstream check.
With `book_exists_cache` holding entity 1, the batch existence check for
entity 1 still performs the downstream POST (`downstreamCalled` is `true`,
not `false`): no code under src/ ever reads `book_exists_cache`. -/
theorem entity_cache_hit_does_not_short_circuit :
    (get_already_indexed_books_v2_with_cache [(1, true)]
      (.status 200 [1])).downstreamCalled = true ∧
    ¬ (get_already_indexed_books_v2_with_cache [(1, true)]
      (.status 200 [1])).downstreamCalled = false :=
  ⟨rfl, by simp [get_already_indexed_books_v2_with_cache]⟩

/-- C9 (amended).  The owner-activity TTL cache is consulted as claimed: a
live entry is returned without a downstream call and without touching the
cache, while a miss falls through to the authoritative fetch whose result is
stored (a following lookup hits it).  The entity-existence LRU cache,
however, is defined but never consulted: every batch existence check
performs the downstream call regardless of the cache content. -/
theorem owner_cache_consulted_entity_cache_not
    (cache : UserReadCache) (now user : Nat) :
    (∀ ids resp, cacheLookup cache now user = some ids →
      get_books_read_by_user cache now user resp =
        .ok { book_ids := ids, cache := cache, downstreamCalled := false }) ∧
    (∀ code body, cacheLookup cache now user = none → code < 400 →
      get_books_read_by_user cache now user (.status code body) =
        .ok { book_ids := body, cache := cacheInsert cache now user body,
              downstreamCalled := true } ∧
      cacheLookup (cacheInsert cache now user body) now user = some body) ∧
    (∀ (ec : BookExistsCache) (resp : QueryResp),
      (get_already_indexed_books_v2_with_cache ec resp).downstreamCalled = true) := by
  refine ⟨?_, ?_, ?_⟩
  · intro ids resp hhit
    simp [get_books_read_by_user, hhit]
  · intro code body hmiss hcode
    refine ⟨?_, cacheLookup_cacheInsert_self cache now user body⟩
    simp only [get_books_read_by_user, hmiss]
    rw [if_pos hcode]
  · intro ec resp
    rfl

/-- C9 (witness): a live entry for owner 1 is served from the cache with no
downstream call, and a miss on an empty cache fetches and stores. -/
theorem owner_cache_consulted_witness :
    get_books_read_by_user [(1, [2], 0)] 0 1 .transportFailure =
      .ok { book_ids := [2], cache := [(1, [2], 0)], downstreamCalled := false } ∧
    get_books_read_by_user [] 0 1 (.status 200 [2]) =
      .ok { book_ids := [2], cache := cacheInsert [] 0 1 [2], downstreamCalled := true } :=
  ⟨(owner_cache_consulted_entity_cache_not [(1, [2], 0)] 0 1).1 [2] .transportFailure rfl,
   ((owner_cache_consulted_entity_cache_not [] 0 1).2.1 200 [2] rfl (by decide)).1⟩

/-- C10 (confirmed).  The batch existence query returns Python `None` (here:
`.ok none`) on every 4xx response, including 429 — not a list and not a
raised error; only a non-error response returns the id subset, and only a
5xx or a transport failure raises.  A caller that immediately accesses
`.book_ids` on the result — `enqueue_books_if_necessary` with a nonempty
candidate list — fails on the 4xx path with the attribute error. -/
theorem already_indexed_4xx_returns_none
    (code : Nat) (ids : List Nat) (h4a : 400 ≤ code) (h4b : code < 500) :
    get_already_indexed_books_v2 (.status code ids) = .ok none ∧
    (∀ c2 b2, c2 < 400 → get_already_indexed_books_v2 (.status c2 b2) = .ok (some b2)) ∧
    (∀ c3 b3, 500 ≤ c3 → get_already_indexed_books_v2 (.status c3 b3) = .error .serverExn) ∧
    get_already_indexed_books_v2 .transportFailure = .error .serverExn ∧
    (∀ (att : Nat → Nat → PopAttempt),
      ¬ (get_candidates_above_indexing_threshold att [1]).isEmpty = true →
      enqueue_books_if_necessary att (.status code ids) [1] = .error .noneBookIdsAccess) := by
  have h1 : get_already_indexed_books_v2 (.status code ids) = .ok none := by
    simp only [get_already_indexed_books_v2]
    rw [if_neg (by omega), if_pos h4b]
  refine ⟨h1, ?_, ?_, rfl, ?_⟩
  · intro c2 b2 h
    simp only [get_already_indexed_books_v2]
    rw [if_pos h]
  · intro c3 b3 h
    simp only [get_already_indexed_books_v2]
    rw [if_neg (by omega), if_neg (by omega)]
  · intro att hne
    simp only [enqueue_books_if_necessary]
    rw [if_neg hne, h1]

/-- C10 (witness): a 429 on the existence query gives `.ok none`, and the
enqueuer crashes on it when entity 1 is popular enough to be a candidate. -/
theorem already_indexed_4xx_witness :
    get_already_indexed_books_v2 (.status 429 []) = .ok none ∧
    enqueue_books_if_necessary (fun _ _ => .response 200 7) (.status 429 []) [1] =
      .error .noneBookIdsAccess :=
  ⟨(already_indexed_4xx_returns_none 429 [] (by decide) (by decide)).1,
   (already_indexed_4xx_returns_none 429 [] (by decide) (by decide)).2.2.2.2
     (fun _ _ => .response 200 7) (by decide)⟩

theorem mem_pySetDiff (a b : List Nat) (x : Nat) : x ∈ pySetDiff a b ↔ x ∈ a ∧ x ∉ b := by
  simp [pySetDiff, List.mem_filter, List.mem_dedup]

theorem remove_books_always_raises (resp : QueryResp) (books : List Nat) :
    remove_books_already_indexed resp books = .error .pyTypeError ∨
    remove_books_already_indexed resp books = .error .apiServerExn := by
  cases resp with
  | status code ids =>
    by_cases h4 : code < 400
    · left
      simp [remove_books_already_indexed, get_already_indexed_books_v1, if_pos h4,
        pySetBooksInApi]
    · by_cases h5 : code < 500
      · left
        simp [remove_books_already_indexed, get_already_indexed_books_v1, if_neg h4,
          if_pos h5, pySetBooksInApi]
      · right
        simp [remove_books_already_indexed, get_already_indexed_books_v1, if_neg h4,
          if_neg h5]
  | transportFailure => right; rfl

theorem processGroups_never_enqueues (booksReadByUser : Nat → List Nat)
    (existsResp : List Nat → QueryResp) (createIndexed : List UserReview → Nat) :
    ∀ (groups : List (Nat × List UserReview)) (acc : ReviewServiceOut),
    enqueuedOf (processGroups booksReadByUser existsResp createIndexed groups acc) =
      acc.enqueuedBookIds := by
  intro groups acc
  cases groups with
  | nil => rfl
  | cons g rest =>
    rcases remove_books_always_raises (existsResp (g.2.map UserReview.book_id))
        (g.2.map UserReview.book_id) with h | h <;>
      simp [processGroups, h, enqueuedOf]

/-- C6 (code bug).  With the owner's existing set `{1, 2}` and the group
holding two reviews whose book ids are 1 and 2, the filter returns the
review of book 2 — an item whose `entity_id` belongs to the resolved
existing-activity set — instead of the empty list: removing the first
review shifts the list under the iterator, so the loop never examines the
second review. -/
theorem remove_already_indexed_misses_adjacent :
    remove_reviews_already_indexed [1, 2] [⟨7, 1, 3⟩, ⟨7, 2, 3⟩] = [⟨7, 2, 3⟩] ∧
    (UserReview.mk 7 2 3).book_id ∈ [1, 2] ∧
    ¬ remove_reviews_already_indexed [1, 2] [⟨7, 1, 3⟩, ⟨7, 2, 3⟩] = [] := by
  decide

/-- C2 (counterexample).  A batch holding one review of book 7 by owner 1,
owner with no prior activity, nothing indexed downstream (the existence
query would answer 200 with the empty list), and book 7's observed
popularity equal to the threshold: the claim predicts the forwarded set
{7}, but the service raises `TypeError` in its scrape-filter step —
`set()` over the `ApiBookExistsBatchResponse` model — after the write and
before any `enqueue_book` call, so nothing at all is forwarded (and no
popularity query was ever made). -/
theorem activity_path_crashes_before_enqueue :
    process_pubsub_batch_message (fun _ => []) (fun _ => .status 200 [])
      (fun l => l.length) [⟨1, 7, 3⟩] =
      .raised .pyTypeError { indexed := 1, enqueuedBookIds := [] } ∧
    specScheduledBooks [⟨1, 7, 3⟩] (fun _ => some 5) [] = [7] ∧
    7 ∉ enqueuedOf (process_pubsub_batch_message (fun _ => []) (fun _ => .status 200 [])
      (fun l => l.length) [⟨1, 7, 3⟩]) ∧
    7 ∈ specScheduledBooks [⟨1, 7, 3⟩] (fun _ => some 5) [] := by
  decide

/-- C2 (amended).  No entity id is ever forwarded to the task enqueuer by
the activity path: for every owner group the scrape-filter step raises
before any `enqueue_book` call — `TypeError` from `set(books_in_api)` on
every non-raising existence answer (success hands back the
`ApiBookExistsBatchResponse` model, a 4xx hands back `None`, neither is a
hashable-element iterable), and the propagated server exception on a
5xx/transport answer — so every run of `process_pubsub_batch_message` ends
with an empty enqueue trace.  The popularity-gated forwarding the claim
describes is implemented only by
`BookTaskEnqueuerService.enqueue_books_if_necessary` (which no
activity-path code invokes): there, on a successful existence answer, the
forwarded ids are exactly those whose popularity mapping entry meets the
threshold, which were requested, and which are not already indexed. -/
theorem activity_scheduling_characterization :
    (∀ (code : Nat) (ids books : List Nat), code < 500 →
      remove_books_already_indexed (.status code ids) books = .error .pyTypeError) ∧
    (∀ (code : Nat) (ids books : List Nat), 500 ≤ code →
      remove_books_already_indexed (.status code ids) books = .error .apiServerExn) ∧
    (∀ books : List Nat,
      remove_books_already_indexed .transportFailure books = .error .apiServerExn) ∧
    (∀ (booksReadByUser : Nat → List Nat) (existsResp : List Nat → QueryResp)
      (createIndexed : List UserReview → Nat) (reviews : List UserReview),
      enqueuedOf (process_pubsub_batch_message booksReadByUser existsResp
        createIndexed reviews) = []) ∧
    (∀ (att : Nat → Nat → PopAttempt) (code : Nat) (existing ids : List Nat),
      code < 400 →
      ∃ tasks, enqueue_books_if_necessary att (.status code existing) ids = .ok tasks ∧
        ∀ b, b ∈ tasks ↔
          (∃ c, (b, c) ∈ get_book_popularity att ids ∧ BOOK_POPULARITY_THRESHOLD ≤ c) ∧
          b ∈ ids ∧ b ∉ existing) := by
  refine ⟨?_, ?_, ?_, ?_, ?_⟩
  · intro code ids books h5
    by_cases h4 : code < 400
    · simp [remove_books_already_indexed, get_already_indexed_books_v1, if_pos h4,
        pySetBooksInApi]
    · simp [remove_books_already_indexed, get_already_indexed_books_v1, if_neg h4,
        if_pos h5, pySetBooksInApi]
  · intro code ids books h5
    simp [remove_books_already_indexed, get_already_indexed_books_v1,
      if_neg (by omega : ¬ code < 400), if_neg (by omega : ¬ code < 500)]
  · intro books
    rfl
  · intro booksReadByUser existsResp createIndexed reviews
    simpa using processGroups_never_enqueues booksReadByUser existsResp createIndexed
      (partitionByUser reviews) { indexed := 0, enqueuedBookIds := [] }
  · intro att code existing ids hcode
    have hresp : get_already_indexed_books_v2 (.status code existing) = .ok (some existing) := by
      simp only [get_already_indexed_books_v2]
      rw [if_pos hcode]
    by_cases hempty : (get_candidates_above_indexing_threshold att ids).isEmpty = true
    · refine ⟨[], ?_, ?_⟩
      · simp only [enqueue_books_if_necessary]
        rw [if_pos hempty]
      · intro b
        simp only [List.not_mem_nil, false_iff]
        rintro ⟨⟨c, hc1, hc2⟩, hbids, _⟩
        have hmem : b ∈ get_candidates_above_indexing_threshold att ids := by
          rw [get_candidates_above_indexing_threshold, List.mem_filterMap]
          exact ⟨(b, c), hc1, by rw [if_pos ⟨hc2, hbids⟩]⟩
        rw [List.isEmpty_iff] at hempty
        rw [hempty] at hmem
        exact (List.not_mem_nil b) hmem
    · refine ⟨pySetDiff (get_candidates_above_indexing_threshold att ids) existing, ?_, ?_⟩
      · simp only [enqueue_books_if_necessary]
        rw [if_neg hempty, hresp]
      · intro b
        rw [mem_pySetDiff]
        constructor
        · rintro ⟨hb1, hb2⟩
          rw [get_candidates_above_indexing_threshold, List.mem_filterMap] at hb1
          obtain ⟨⟨p1, p2⟩, hp, hpi⟩ := hb1
          by_cases hcond : BOOK_POPULARITY_THRESHOLD ≤ p2 ∧ p1 ∈ ids
          · rw [if_pos hcond] at hpi
            have hp1b : p1 = b := by simpa using hpi
            subst hp1b
            exact ⟨⟨p2, hp, hcond.1⟩, hcond.2, hb2⟩
          · rw [if_neg hcond] at hpi
            simp at hpi
        · rintro ⟨⟨c, hc1, hc2⟩, hbids, hbex⟩
          refine ⟨?_, hbex⟩
          rw [get_candidates_above_indexing_threshold, List.mem_filterMap]
          exact ⟨(b, c), hc1, by rw [if_pos ⟨hc2, hbids⟩]⟩

/-- C2 (witness): a 200 existence answer makes the scrape step raise the
`TypeError`; the concrete one-review batch forwards nothing; and the
enqueuer service forwards entity 1 when its popularity is 7 and the
existence answer names nothing. -/
theorem activity_scheduling_witness :
    remove_books_already_indexed (.status 200 [5]) [7] = .error .pyTypeError ∧
    enqueuedOf (process_pubsub_batch_message (fun _ => []) (fun _ => .status 404 [])
      (fun l => l.length) [⟨1, 7, 3⟩]) = [] ∧
    ∃ tasks, enqueue_books_if_necessary (fun _ _ => .response 200 7) (.status 200 [])
        [1] = .ok tasks ∧ 1 ∈ tasks := by
  refine ⟨?_, ?_, ?_⟩
  · exact activity_scheduling_characterization.1 200 [5] [7] (by decide)
  · exact activity_scheduling_characterization.2.2.2.1 (fun _ => [])
      (fun _ => .status 404 []) (fun l => l.length) [⟨1, 7, 3⟩]
  · obtain ⟨tasks, heq, hchar⟩ := activity_scheduling_characterization.2.2.2.2
      (fun _ _ => .response 200 7) 200 [] [1] (by decide)
    exact ⟨tasks, heq, (hchar 1).mpr ⟨⟨7, by decide, by decide⟩, by decide, by decide⟩⟩

/-- C7 (confirmed).  The job identity is the deterministic string
`book-<entity_id>` embedded in a path that is a pure function of the static
properties, so every invocation for the same entity derives the same
identity; a transport failure contacting the queue propagates as an error;
two submissions of the same entity against one queue yield at most one
non-duplicate handle; and on a fresh queue the second submission is reported
as the normal `"duplicate"` outcome (an `.ok` value, not an error). -/
theorem task_enqueue_dedup (p : TaskProperties) (queue : List String) (book_id : Nat) :
    bookTaskName book_id = "book-" ++ toString book_id ∧
    enqueue_book p false queue book_id = .error () ∧
    nonDuplicateCount [(enqueue_book_twice p queue book_id).1,
      (enqueue_book_twice p queue book_id).2] ≤ 1 ∧
    (enqueue_book_twice p [] book_id).1 = generate_task_path p (bookTaskName book_id) ∧
    (enqueue_book_twice p [] book_id).2 = "duplicate" := by
  refine ⟨rfl, rfl, ?_, ?_, ?_⟩
  · by_cases hmem : generate_task_path p (bookTaskName book_id) ∈ queue
    · simp [enqueue_book_twice, enqueue_book, hmem, nonDuplicateCount]
    · simp only [enqueue_book_twice, enqueue_book, if_true, if_neg hmem, if_pos
        (List.mem_append_right queue (List.mem_singleton.mpr rfl))]
      by_cases hname : generate_task_path p (bookTaskName book_id) = "duplicate" <;>
        simp [nonDuplicateCount, hname]
  · simp [enqueue_book_twice, enqueue_book]
  · simp [enqueue_book_twice, enqueue_book]

end BookIndexer
